import Mathlib

/-!
Shallow embedding of the pesa-pay payment API (src/app.py).

Modelling conventions:
- Monetary amounts (Python floats compared with `<=`, `>`) are rationals.
- The SQLite table of Payment rows is a `List Payment` in insertion order
  (an un-ordered SELECT on this schema returns rows in rowid = insertion
  order, which is the order of `db.session.add`).
- `datetime.now().year`, the generated uuid and the creation timestamp are
  explicit parameters (`currentYear`, `freshId`, `now`).
- Endpoint results are `Except ApiError body` paired with the new store;
  `ApiError` carries the HTTP status and the `detail` string of the JSON
  error body.
- `re.match` with an anchored pattern is modelled on the character list
  including the Python semantics of the trailing anchor, which matches at
  the end of the string and also just before one final newline
  (`pyDollarStrip`). The digit class is modelled as the ASCII digits;
  Python's digit class additionally matches non-ASCII Unicode decimal
  digits, which lie outside the ASCII input domain modelled here.
- SQLAlchemy `SQLEnum(Currency)` does not validate plain strings on bind
  and creates no CHECK constraint (validate_strings and create_constraint
  default to false in the SQLAlchemy versions this code requires, per its
  use of session.get and db.select), so add+commit persists any currency
  string as the column's text. Reading the row back maps the stored text
  to an enum member and raises LookupError for a string outside
  USD/UGX/KES (`Currency.fromName` returning `none`); that read-back
  happens after the commit, while serializing the response, so such a
  call answers 500 "Internal server error" although the row stays
  persisted — the rollback in the handler runs after the commit and is a
  no-op. The store therefore gains the row on this path too.
- SQLite semantics for the un-validated limit/offset: a negative LIMIT
  means no upper bound on the rows returned, a negative OFFSET behaves
  like 0 (`sqlSlice`).
-/

deriving instance DecidableEq for Except

namespace PesaPay

/-- The closed currency enumeration (class Currency in src/app.py). -/
inductive Currency where
  | USD
  | UGX
  | KES
deriving DecidableEq, Repr

/-- Lookup of a stored currency string among the enum members, as the
SQLEnum result processor does when a row is read back; `none` models the
LookupError it raises for a stored string outside the enumeration. On
bind the type passes unknown strings through unvalidated, so this lookup
only happens on reads — for create_payment that is the post-commit
refresh while serializing the response. -/
def Currency.fromName (s : String) : Option Currency :=
  if s == "USD" then some Currency.USD
  else if s == "UGX" then some Currency.UGX
  else if s == "KES" then some Currency.KES
  else none

/-- Payment status enumeration (class PaymentStatus in src/app.py). -/
inductive PaymentStatus where
  | pending
  | succeeded
  | failed
  | refunded
deriving DecidableEq, Repr

/-- Metadata: an optional JSON object with string keys; values are kept
as opaque strings, which suffices for every claim (only equality of the
whole field is ever stated). -/
abbrev Metadata := List (String × String)

/-- A persisted Payment row (class Payment in src/app.py). The column
set is exactly this: there is no column for the full card number or the
CVV. The currency column holds the stored text: SQLEnum binds the
request's raw string, mapping it to an enum name when it is one and
passing it through unvalidated otherwise. -/
structure Payment where
  id : String
  amount : ℚ
  currency : String
  status : PaymentStatus
  created_at : Nat
  description : Option String
  payment_metadata : Option Metadata
  last_four : String
deriving DecidableEq, Repr

/-- An HTTP error response: status code and the detail string. -/
structure ApiError where
  status : Nat
  detail : String
deriving DecidableEq, Repr

/-- Card details submitted with a create-payment request
(class CardDetails in src/app.py). -/
structure CardDetails where
  card_number : String
  expiry_month : String
  expiry_year : String
  cvv : String
  cardholder_name : String
deriving DecidableEq, Repr

/-- A create-payment request body (class PaymentRequest in src/app.py);
currency arrives as a raw string, it is only interpreted at persistence. -/
structure PaymentRequest where
  amount : ℚ
  currency : String
  description : Option String
  metadata : Option Metadata
  card_details : CardDetails
deriving DecidableEq, Repr

/-- The Python trailing anchor in an anchored pattern whose body cannot
match a newline: it matches at the end of the string and also just
before one final newline, so the pattern's language is the body's
language with one optional trailing newline. This strips that optional
final newline. -/
def pyDollarStrip (l : List Char) : List Char :=
  if l.getLast? == some '\n' then l.dropLast else l

/-- The language of the regex that anchors n digits: after removing the
optional trailing newline admitted by the anchor, exactly n decimal
digits (ASCII here; the modelled input domain). -/
def reDigits (n : Nat) (s : String) : Bool :=
  let l := pyDollarStrip s.data
  l.length == n && l.all Char.isDigit

/-- The language of the expiry-month regex: the twelve zero-padded month
strings 01 through 12, with the optional trailing newline admitted by
the anchor. -/
def reMonth (s : String) : Bool :=
  ["01", "02", "03", "04", "05", "06",
   "07", "08", "09", "10", "11", "12"].contains
    (String.mk (pyDollarStrip s.data))

/-- The language of the CVV regex: 3 or 4 digits, with the optional
trailing newline admitted by the anchor. -/
def reCvv (s : String) : Bool :=
  let l := pyDollarStrip s.data
  (l.length == 3 || l.length == 4) && l.all Char.isDigit

/-- Decimal value of a string of ASCII digits. -/
def strToNat (s : String) : Nat :=
  s.data.foldl (fun n c => n * 10 + (c.toNat - 48)) 0

/-- Python int() at the expiry-year call site: int() strips surrounding
whitespace, and the guarding regex admits only 4 digits with at most a
trailing newline, so the value is the decimal value of the digit prefix.
When the regex fails the disjunction already holds and this value is
irrelevant, matching the short-circuit that keeps int() from running. -/
def pyIntYear (s : String) : Nat :=
  strToNat (String.mk (pyDollarStrip s.data))

/-- CardDetails.validate (src/app.py lines 58-66): the four rules in
source order, first failure reported; the year rule also fails when the
four-digit year is numerically below the current calendar year. -/
def CardDetails.validate (currentYear : Nat) (c : CardDetails) : Option String :=
  if ¬ reDigits 16 c.card_number then some "Card number must be 16 digits"
  else if ¬ reMonth c.expiry_month then some "Invalid expiry month"
  else if ¬ reDigits 4 c.expiry_year ∨ pyIntYear c.expiry_year < currentYear then
    some "Invalid expiry year"
  else if ¬ reCvv c.cvv then some "CVV must be 3 or 4 digits"
  else none

/-- PaymentRequest.validate (src/app.py lines 76-81): the amount bound is
checked first, then card validation; the isinstance check cannot fail in
the typed embedding. The currency field is never read. -/
def PaymentRequest.validate (currentYear : Nat) (r : PaymentRequest) : Option String :=
  if r.amount ≤ 0 then some "Amount must be greater than 0"
  else CardDetails.validate currentYear r.card_details

/-- validate_api_key (src/app.py lines 84-87). -/
def validate_api_key (configuredKey apiKey : String) : Option String :=
  if apiKey ≠ configuredKey then some "Invalid API key" else none

/-- get_last_four_digits (src/app.py lines 89-91): Python card_number[-4:],
the last four characters (the whole string when shorter, since the
negative start index clamps to 0). -/
def get_last_four_digits (cardNumber : String) : String :=
  String.mk (cardNumber.data.drop (cardNumber.data.length - 4))

/-- Python str.startswith: the characters of the pattern are an initial
segment of the characters of the string. -/
def pyStartsWith (s pat : String) : Bool :=
  List.isPrefixOf pat.data s.data

/-- create_payment (src/app.py lines 94-153) after JSON parsing: key
check, request validation, the 4111-prefix authorization, then
persistence. The add+commit persists the row with the request's raw
currency string for any string (the enum type passes unknown strings
through on bind and the table has no CHECK constraint). Afterwards the
response block reads the refreshed row; for a currency outside the enum
that read-back raises, the generic handler answers 500 (its rollback
runs after the commit and undoes nothing), so the row stays persisted on
this path too. Returns the response and the new store. -/
def create_payment (configuredKey apiKey : String) (currentYear : Nat)
    (freshId : String) (now : Nat) (data : PaymentRequest)
    (store : List Payment) : Except ApiError Payment × List Payment :=
  match validate_api_key configuredKey apiKey with
  | some msg => (Except.error ⟨400, msg⟩, store)
  | none =>
    match data.validate currentYear with
    | some msg => (Except.error ⟨400, msg⟩, store)
    | none =>
      if pyStartsWith data.card_details.card_number "4111" then
        let payment : Payment :=
          { id := freshId
            amount := data.amount
            currency := data.currency
            status := PaymentStatus.succeeded
            created_at := now
            description := data.description
            payment_metadata := data.metadata
            last_four := get_last_four_digits data.card_details.card_number }
        match Currency.fromName data.currency with
        | none => (Except.error ⟨500, "Internal server error"⟩, store ++ [payment])
        | some _ => (Except.ok payment, store ++ [payment])
      else
        (Except.error ⟨400, "Card declined"⟩, store)

/-- Python truthiness of the optional refund amount: absent or zero is
falsy, any non-zero number is truthy. -/
def pyTruthy (a : Option ℚ) : Bool :=
  match a with
  | none => false
  | some x => decide (x ≠ 0)

/-- Update the status of the row with the given primary key (the session
mutation payment.status = ... followed by commit); the primary key is
unique so at most the first match is the row. -/
def setStatusFirst (paymentId : String) (st : PaymentStatus) :
    List Payment → List Payment
  | [] => []
  | p :: ps =>
    if p.id == paymentId then { p with status := st } :: ps
    else p :: setStatusFirst paymentId st ps

/-- refund_payment (src/app.py lines 181-218) after JSON parsing: key
check, primary-key lookup, the status guard, the truthiness-guarded
over-refund check, then the status mutation. Returns the response and
the new store. -/
def refund_payment (configuredKey apiKey : String) (paymentId : String)
    (refundAmount : Option ℚ) (store : List Payment) :
    Except ApiError Payment × List Payment :=
  match validate_api_key configuredKey apiKey with
  | some msg => (Except.error ⟨400, msg⟩, store)
  | none =>
    match store.find? (fun q => q.id == paymentId) with
    | none => (Except.error ⟨404, "Payment not found"⟩, store)
    | some payment =>
      if payment.status ≠ PaymentStatus.succeeded then
        (Except.error ⟨400, "Payment cannot be refunded"⟩, store)
      else if pyTruthy refundAmount && decide (payment.amount < refundAmount.getD 0) then
        (Except.error ⟨400, "Refund amount exceeds payment amount"⟩, store)
      else
        (Except.ok { payment with status := PaymentStatus.refunded },
         setStatusFirst paymentId PaymentStatus.refunded store)

/-- Python int() applied to a query argument: an optional sign followed
by at least one ASCII digit parses to an integer, anything else raises
ValueError (modelled as none). Python additionally strips surrounding
whitespace and accepts underscore grouping and non-ASCII Unicode digits;
those inputs also parse to integers, so the split between parsing and
raising modelled here is the one the slicing and error paths need. -/
def pyInt? (s : String) : Option Int :=
  match s.data with
  | [] => none
  | c :: cs =>
    if c == '-' then
      if cs ≠ [] ∧ cs.all Char.isDigit then
        some (-(Int.ofNat (strToNat (String.mk cs))))
      else none
    else if c == '+' then
      if cs ≠ [] ∧ cs.all Char.isDigit then
        some (Int.ofNat (strToNat (String.mk cs)))
      else none
    else if (c :: cs).all Char.isDigit then
      some (Int.ofNat (strToNat s))
    else none

/-- The detail string of the 400 answer produced when int() raises on a
query argument: the ValueError message, with the quotes Python puts
around the offending literal elided. -/
def intErrorDetail (s : String) : String :=
  "invalid literal for int() with base 10: " ++ s

/-- SELECT ... OFFSET o LIMIT l under SQLite semantics on the insertion-
ordered table: a negative offset behaves like 0, a negative limit means
no upper bound. -/
def sqlSlice (offset limit : Int) (xs : List Payment) : List Payment :=
  let dropped := xs.drop offset.toNat
  if limit < 0 then dropped else dropped.take limit.toNat

/-- list_payments (src/app.py lines 220-250): key check, int() parsing of
the limit and offset query arguments with defaults 10 and 0, then the
offset/limit slice of the table. -/
def list_payments (configuredKey apiKey : String)
    (limitArg offsetArg : Option String) (store : List Payment) :
    Except ApiError (List Payment) :=
  match validate_api_key configuredKey apiKey with
  | some msg => Except.error ⟨400, msg⟩
  | none =>
    match pyInt? (limitArg.getD "10") with
    | none => Except.error ⟨400, intErrorDetail (limitArg.getD "10")⟩
    | some limit =>
      match pyInt? (offsetArg.getD "0") with
      | none => Except.error ⟨400, intErrorDetail (offsetArg.getD "0")⟩
      | some offset => Except.ok (sqlSlice offset limit store)

/-- The non-status columns of a Payment row, used to state frame
conditions: two stores agree on `map frame` exactly when every row kept
its position and all fields other than status. -/
def Payment.frame (p : Payment) :
    String × ℚ × String × Nat × Option String × Option Metadata × String :=
  (p.id, p.amount, p.currency, p.created_at, p.description,
   p.payment_metadata, p.last_four)

/-!
Spec-side card validation. The first group of rules is written from the
words of spec.md section 4.1 as stated (exactly 16 ASCII digits, and so
on); the second group amends each rule with the one trailing newline that
the anchored Python patterns also admit. Both cascades are compared with
`CardDetails.validate` (the embedding of the source).
-/

/-- Spec 4.1: the card number must be exactly 16 ASCII digits. -/
def spec_card_number_ok (s : String) : Bool :=
  s.data.length == 16 && s.data.all Char.isDigit

/-- A month number rendered as two zero-padded digits. -/
def zeroPad2 (m : Nat) : String :=
  if m < 10 then "0" ++ toString m else toString m

/-- Spec 4.1: the expiry month must match 01 through 12, zero-padded two
digits. -/
def spec_expiry_month_ok (s : String) : Bool :=
  ((List.range' 1 12).map zeroPad2).contains s

/-- Spec 4.1: the expiry year must be exactly 4 digits and numerically at
least the current calendar year. -/
def spec_expiry_year_ok (currentYear : Nat) (s : String) : Bool :=
  s.data.length == 4 && s.data.all Char.isDigit
    && decide (currentYear ≤ strToNat s)

/-- Spec 4.1: the CVV must be 3 or 4 digits. -/
def spec_cvv_ok (s : String) : Bool :=
  (s.data.length == 3 || s.data.length == 4) && s.data.all Char.isDigit

/-- Spec 4.1 cascade: the four rules checked in the order number, month,
year, CVV, reporting the first failure. -/
def specCardValidate (currentYear : Nat) (c : CardDetails) : Option String :=
  if ¬ spec_card_number_ok c.card_number then some "Card number must be 16 digits"
  else if ¬ spec_expiry_month_ok c.expiry_month then some "Invalid expiry month"
  else if ¬ spec_expiry_year_ok currentYear c.expiry_year then some "Invalid expiry year"
  else if ¬ spec_cvv_ok c.cvv then some "CVV must be 3 or 4 digits"
  else none

/-- Amended number rule: exactly 16 digits after removing the optional
trailing newline. -/
def spec_card_number_ok_py (s : String) : Bool :=
  spec_card_number_ok (String.mk (pyDollarStrip s.data))

/-- Amended month rule: a zero-padded month 01 through 12 after removing
the optional trailing newline. -/
def spec_expiry_month_ok_py (s : String) : Bool :=
  spec_expiry_month_ok (String.mk (pyDollarStrip s.data))

/-- Amended year rule: exactly 4 digits, numerically at least the
current year, after removing the optional trailing newline. -/
def spec_expiry_year_ok_py (currentYear : Nat) (s : String) : Bool :=
  spec_expiry_year_ok currentYear (String.mk (pyDollarStrip s.data))

/-- Amended CVV rule: 3 or 4 digits after removing the optional trailing
newline. -/
def spec_cvv_ok_py (s : String) : Bool :=
  spec_cvv_ok (String.mk (pyDollarStrip s.data))

/-- The amended cascade: the four newline-tolerant rules checked in the
order number, month, year, CVV, reporting the first failure. -/
def specCardValidatePy (currentYear : Nat) (c : CardDetails) : Option String :=
  if ¬ spec_card_number_ok_py c.card_number then some "Card number must be 16 digits"
  else if ¬ spec_expiry_month_ok_py c.expiry_month then some "Invalid expiry month"
  else if ¬ spec_expiry_year_ok_py currentYear c.expiry_year then some "Invalid expiry year"
  else if ¬ spec_cvv_ok_py c.cvv then some "CVV must be 3 or 4 digits"
  else none

/-! Sample data used by the witness theorems. -/

/-- A well-formed create-payment request with an authorizing card. -/
def sampleRequest : PaymentRequest :=
  { amount := 1000, currency := "USD", description := some "Test payment",
    metadata := some [("order_id", "12345")],
    card_details :=
      { card_number := "4111111111111111", expiry_month := "12",
        expiry_year := "2030", cvv := "123", cardholder_name := "Test User" } }

/-- The row persisted for `sampleRequest` with id "id1" at time 7. -/
def samplePayment : Payment :=
  { id := "id1", amount := 1000, currency := "USD",
    status := PaymentStatus.succeeded, created_at := 7,
    description := some "Test payment",
    payment_metadata := some [("order_id", "12345")], last_four := "1111" }

/-! Helper lemmas. -/

theorem validate_api_key_self (k : String) : validate_api_key k k = none := by
  simp [validate_api_key]

theorem setStatusFirst_find? (paymentId : String) (st : PaymentStatus)
    (l : List Payment) :
    (setStatusFirst paymentId st l).find? (fun q => q.id == paymentId)
      = (l.find? (fun q => q.id == paymentId)).map
          (fun q => { q with status := st }) := by
  induction l with
  | nil => rfl
  | cons p ps ih =>
    by_cases h : p.id == paymentId
    · simp [setStatusFirst, h, List.find?]
    · simp [setStatusFirst, h, List.find?, ih]

theorem setStatusFirst_map_frame (paymentId : String) (st : PaymentStatus)
    (l : List Payment) :
    (setStatusFirst paymentId st l).map Payment.frame = l.map Payment.frame := by
  induction l with
  | nil => rfl
  | cons p ps ih =>
    by_cases h : p.id == paymentId
    · simp [setStatusFirst, h, Payment.frame]
    · simp [setStatusFirst, h, Payment.frame, ih]

theorem validate_none_card16 (currentYear : Nat) (r : PaymentRequest)
    (h : r.validate currentYear = none) :
    reDigits 16 r.card_details.card_number = true := by
  unfold PaymentRequest.validate at h
  by_cases h1 : r.amount ≤ 0
  · simp [h1] at h
  · by_cases h2 : reDigits 16 r.card_details.card_number
    · exact h2
    · simp [h1, CardDetails.validate, h2] at h

theorem refund_payment_eval_ok (cfg paymentId : String) (a : Option ℚ)
    (store : List Payment) (p : Payment)
    (hfind : store.find? (fun q => q.id == paymentId) = some p)
    (hst : p.status = PaymentStatus.succeeded)
    (hguard : (pyTruthy a && decide (p.amount < a.getD 0)) = false) :
    refund_payment cfg cfg paymentId a store =
      (Except.ok { p with status := PaymentStatus.refunded },
       setStatusFirst paymentId PaymentStatus.refunded store) := by
  unfold refund_payment
  rw [validate_api_key_self, hfind]
  simp [hst, hguard]

theorem refund_payment_eval_not_succeeded (cfg paymentId : String)
    (a : Option ℚ) (store : List Payment) (p : Payment)
    (hfind : store.find? (fun q => q.id == paymentId) = some p)
    (hst : p.status ≠ PaymentStatus.succeeded) :
    refund_payment cfg cfg paymentId a store =
      (Except.error ⟨400, "Payment cannot be refunded"⟩, store) := by
  unfold refund_payment
  rw [validate_api_key_self, hfind]
  simp [hst]

/-- The row constructed by create_payment on the authorized path
(src/app.py lines 127-134); the currency column receives the request's
raw string. -/
def authorizedPayment (freshId : String) (now : Nat)
    (data : PaymentRequest) : Payment :=
  { id := freshId, amount := data.amount, currency := data.currency,
    status := PaymentStatus.succeeded, created_at := now,
    description := data.description, payment_metadata := data.metadata,
    last_four := get_last_four_digits data.card_details.card_number }

theorem create_payment_eval_ok (cfg : String) (currentYear : Nat)
    (freshId : String) (now : Nat) (data : PaymentRequest)
    (store : List Payment) (cur : Currency)
    (hval : data.validate currentYear = none)
    (hcur : Currency.fromName data.currency = some cur)
    (h4111 : pyStartsWith data.card_details.card_number "4111" = true) :
    create_payment cfg cfg currentYear freshId now data store
      = (Except.ok (authorizedPayment freshId now data),
         store ++ [authorizedPayment freshId now data]) := by
  unfold create_payment
  rw [validate_api_key_self, hval]
  simp [h4111, hcur, authorizedPayment]

/-! Claim theorems. -/

/-- Claim C1: for a validated request (with a currency among the enum
members), a card number starting with 4111 makes create_payment persist
and return a record with status SUCCEEDED, while any other card number
makes it fail with detail "Card declined" and leave the store unchanged;
moreover no call to create_payment ever appends a row whose status is not
SUCCEEDED, so no FAILED row is ever written. -/
theorem createPayment_authorization (cfg : String) (currentYear : Nat)
    (freshId : String) (now : Nat) (data : PaymentRequest)
    (store : List Payment) (cur : Currency)
    (hval : data.validate currentYear = none)
    (hcur : Currency.fromName data.currency = some cur) :
    (pyStartsWith data.card_details.card_number "4111" = true →
      create_payment cfg cfg currentYear freshId now data store
        = (Except.ok (authorizedPayment freshId now data),
           store ++ [authorizedPayment freshId now data])
      ∧ (authorizedPayment freshId now data).status
          = PaymentStatus.succeeded)
    ∧ (pyStartsWith data.card_details.card_number "4111" = false →
      create_payment cfg cfg currentYear freshId now data store
        = (Except.error ⟨400, "Card declined"⟩, store))
    ∧ (∀ (data2 : PaymentRequest) (store2 : List Payment) (q : Payment),
        q ∈ (create_payment cfg cfg currentYear freshId now data2 store2).2 →
        q ∈ store2 ∨ q.status = PaymentStatus.succeeded) := by
  refine ⟨?_, ?_, ?_⟩
  · intro h
    exact ⟨create_payment_eval_ok cfg currentYear freshId now data store cur
        hval hcur h, rfl⟩
  · intro h
    unfold create_payment
    rw [validate_api_key_self, hval]
    simp [h]
  · intro data2 store2 q hq
    unfold create_payment at hq
    rw [validate_api_key_self] at hq
    cases hv : data2.validate currentYear with
    | some msg => rw [hv] at hq; exact Or.inl hq
    | none =>
      rw [hv] at hq
      by_cases hp : pyStartsWith data2.card_details.card_number "4111" = true
      · rw [if_pos hp] at hq
        cases hc : Currency.fromName data2.currency with
        | none =>
          rw [hc] at hq
          simp only [List.mem_append, List.mem_singleton] at hq
          rcases hq with hq | hq
          · exact Or.inl hq
          · subst hq; exact Or.inr rfl
        | some cur2 =>
          rw [hc] at hq
          simp only [List.mem_append, List.mem_singleton] at hq
          rcases hq with hq | hq
          · exact Or.inl hq
          · subst hq; exact Or.inr rfl
      · rw [if_neg hp] at hq; exact Or.inl hq

/-- Witness for C1: both authorization outcomes at concrete inputs. -/
theorem createPayment_authorization_witness :
    (create_payment "k" "k" 2025 "id1" 7 sampleRequest []
        = (Except.ok (authorizedPayment "id1" 7 sampleRequest),
           [] ++ [authorizedPayment "id1" 7 sampleRequest])
      ∧ (authorizedPayment "id1" 7 sampleRequest).status
          = PaymentStatus.succeeded)
    ∧ create_payment "k" "k" 2025 "id1" 7
        { sampleRequest with card_details :=
            { sampleRequest.card_details with
                card_number := "5555555555554444" } } []
        = (Except.error ⟨400, "Card declined"⟩, []) :=
  ⟨(createPayment_authorization "k" 2025 "id1" 7 sampleRequest []
      Currency.USD (by decide) (by decide)).1 (by decide),
   (createPayment_authorization "k" 2025 "id1" 7
      { sampleRequest with card_details :=
          { sampleRequest.card_details with
              card_number := "5555555555554444" } } []
      Currency.USD (by decide) (by decide)).2.1 (by decide)⟩

/-- Claim C2: a SUCCEEDED payment found in the store is refunded (status
becomes REFUNDED) when no amount is given or the given amount is at most
the stored amount, and on the resulting store any second refund of the
same payment fails with detail "Payment cannot be refunded", so the
payment never leaves REFUNDED. -/
theorem refund_succeeded_exactly_once (cfg paymentId : String)
    (a : Option ℚ) (store : List Payment) (p : Payment)
    (hfind : store.find? (fun q => q.id == paymentId) = some p)
    (hst : p.status = PaymentStatus.succeeded)
    (hle : ∀ x : ℚ, a = some x → x ≤ p.amount) :
    refund_payment cfg cfg paymentId a store =
      (Except.ok { p with status := PaymentStatus.refunded },
       setStatusFirst paymentId PaymentStatus.refunded store)
    ∧ ∀ a2 : Option ℚ,
        refund_payment cfg cfg paymentId a2
            (setStatusFirst paymentId PaymentStatus.refunded store) =
          (Except.error ⟨400, "Payment cannot be refunded"⟩,
           setStatusFirst paymentId PaymentStatus.refunded store) := by
  have hguard : (pyTruthy a && decide (p.amount < a.getD 0)) = false := by
    cases a with
    | none => rfl
    | some x =>
      have hx := hle x rfl
      by_cases hx0 : x = 0
      · simp [pyTruthy, hx0]
      · simp [pyTruthy, hx0, Option.getD]
        exact hx
  refine ⟨refund_payment_eval_ok cfg paymentId a store p hfind hst hguard, ?_⟩
  intro a2
  refine refund_payment_eval_not_succeeded cfg paymentId a2 _
    { p with status := PaymentStatus.refunded } ?_ ?_
  · rw [setStatusFirst_find?, hfind]; rfl
  · simp

/-- Witness for C2: refund of the sample payment at its full amount, then
a failing second refund. -/
theorem refund_succeeded_exactly_once_witness :
    refund_payment "k" "k" "id1" (some 1000) [samplePayment] =
      (Except.ok { samplePayment with status := PaymentStatus.refunded },
       setStatusFirst "id1" PaymentStatus.refunded [samplePayment])
    ∧ refund_payment "k" "k" "id1" none
        (setStatusFirst "id1" PaymentStatus.refunded [samplePayment]) =
      (Except.error ⟨400, "Payment cannot be refunded"⟩,
       setStatusFirst "id1" PaymentStatus.refunded [samplePayment]) :=
  have h := refund_succeeded_exactly_once "k" "id1" (some 1000)
    [samplePayment] samplePayment (by decide) rfl
    (by intro x hx; cases hx; decide)
  ⟨h.1, h.2 none⟩

/-- Claim C3: for every create-payment request whose amount is at most 0,
create_payment fails with the amount validation error regardless of the
card fields (so before any card validation or authorization), and the
store is returned unchanged. -/
theorem createPayment_rejects_nonpositive_amount (cfg : String)
    (currentYear : Nat) (freshId : String) (now : Nat)
    (data : PaymentRequest) (store : List Payment)
    (h : data.amount ≤ 0) :
    create_payment cfg cfg currentYear freshId now data store =
      (Except.error ⟨400, "Amount must be greater than 0"⟩, store) := by
  unfold create_payment
  rw [validate_api_key_self]
  simp [PaymentRequest.validate, h]

/-- Witness for C3 at amount -100. -/
theorem createPayment_rejects_nonpositive_amount_witness :
    create_payment "sk_test_123" "sk_test_123" 2025 "id1" 7
        { sampleRequest with amount := -100 } [] =
      (Except.error ⟨400, "Amount must be greater than 0"⟩, []) :=
  createPayment_rejects_nonpositive_amount "sk_test_123" 2025 "id1" 7
    { sampleRequest with amount := -100 } [] (by decide)

/-- Counterexample to C4: the code's card validation accepts a card
number of 16 digits followed by one newline, because the trailing anchor
of the Python pattern also matches before a final newline, while the
claimed rule "exactly 16 ASCII digits" rejects that string (so the
claimed cascade disagrees with the code there); months, years and CVVs
with a trailing newline are likewise accepted. -/
theorem card_validation_accepts_trailing_newline :
    CardDetails.validate 2025
      { card_number := "4111111111111111\n", expiry_month := "12",
        expiry_year := "2030", cvv := "123", cardholder_name := "Test User" }
      = none
    ∧ specCardValidate 2025
      { card_number := "4111111111111111\n", expiry_month := "12",
        expiry_year := "2030", cvv := "123", cardholder_name := "Test User" }
      = some "Card number must be 16 digits"
    ∧ spec_card_number_ok "4111111111111111\n" = false
    ∧ CardDetails.validate 2025
      { card_number := "4111111111111111", expiry_month := "12\n",
        expiry_year := "2030\n", cvv := "123\n", cardholder_name := "Test User" }
      = none :=
  ⟨by decide, by decide, by decide, by decide⟩

/-- Claim C4 as amended: card validation agrees everywhere with the
newline-tolerant spec cascade: the rules are checked in the order
number, month, year, CVV with the first failure reported, where — after
removing the one trailing newline each anchored pattern also admits —
the number rule is exactly 16 digits, the month rule is 01 through 12
zero-padded, the year rule is exactly 4 digits numerically at least the
current year (int strips the newline), and the CVV rule is 3 or 4
digits; digits are the ASCII digits of the modelled input domain. -/
theorem card_validation_matches_newline_tolerant_spec (currentYear : Nat)
    (c : CardDetails) :
    CardDetails.validate currentYear c = specCardValidatePy currentYear c := by
  have hnum : spec_card_number_ok_py c.card_number
      = reDigits 16 c.card_number := rfl
  have hmon : spec_expiry_month_ok_py c.expiry_month
      = reMonth c.expiry_month := by
    have hl : (List.range' 1 12).map zeroPad2
        = ["01", "02", "03", "04", "05", "06",
           "07", "08", "09", "10", "11", "12"] := by decide
    unfold spec_expiry_month_ok_py spec_expiry_month_ok reMonth
    rw [hl]
  have hcvv : spec_cvv_ok_py c.cvv = reCvv c.cvv := rfl
  have hyear : (¬ reDigits 4 c.expiry_year ∨ pyIntYear c.expiry_year < currentYear)
      ↔ ¬ (spec_expiry_year_ok_py currentYear c.expiry_year = true) := by
    have hs : spec_expiry_year_ok_py currentYear c.expiry_year
        = (reDigits 4 c.expiry_year
            && decide (currentYear ≤ pyIntYear c.expiry_year)) := rfl
    rw [hs]
    simp only [Bool.and_eq_true, decide_eq_true_eq, not_and_or]
    rw [Nat.not_le]
  unfold CardDetails.validate specCardValidatePy
  rw [hnum, hmon, hcvv]
  simp only [hyear]

/-- Counterexample to C5: a negative limit value does not make the call
fail with a client error: with limit "-1" (which int() parses to the
negative number -1) the call returns 200 with a list, not a 400. -/
theorem listPayments_negative_limit_not_rejected :
    pyInt? "-1" = some (-1) ∧ ((-1 : Int) < 0) ∧
    list_payments "sk_test_123" "sk_test_123" (some "-1") none []
      = Except.ok [] := by
  refine ⟨by decide, by decide, by decide⟩

/-- Claim C5 as amended: listPayments returns the rows in insertion order
sliced by offset and limit, defaulting to limit 10 and offset 0; a
non-numeric limit or offset fails with a 400 client error, but negative
values are accepted: a negative limit returns all remaining rows and a
negative offset behaves as 0; after creating 3 payments, limit 2 offset 0
returns exactly 2 rows and limit 2 offset 2 returns exactly 1. -/
theorem listPayments_pagination (cfg : String) :
    (∀ store : List Payment,
      list_payments cfg cfg none none store = Except.ok (store.take 10))
    ∧ (∀ (s : String) (off : Option String) (store : List Payment),
        pyInt? s = none →
        list_payments cfg cfg (some s) off store
          = Except.error ⟨400, intErrorDetail s⟩)
    ∧ (∀ (l s : String) (lv : Int) (store : List Payment),
        pyInt? l = some lv → pyInt? s = none →
        list_payments cfg cfg (some l) (some s) store
          = Except.error ⟨400, intErrorDetail s⟩)
    ∧ (∀ store : List Payment,
        list_payments cfg cfg (some "-1") none store = Except.ok store)
    ∧ (∀ (off : String) (ov : Int) (store : List Payment),
        pyInt? off = some ov → ov < 0 →
        list_payments cfg cfg none (some off) store
          = Except.ok (store.take 10))
    ∧ ∀ p1 p2 p3 : Payment,
        list_payments cfg cfg (some "2") (some "0") [p1, p2, p3]
          = Except.ok [p1, p2]
        ∧ list_payments cfg cfg (some "2") (some "2") [p1, p2, p3]
          = Except.ok [p3] := by
  have h10 : pyInt? "10" = some 10 := by decide
  have h0 : pyInt? "0" = some 0 := by decide
  have hneg : pyInt? "-1" = some (-1) := by decide
  refine ⟨?_, ?_, ?_, ?_, ?_, ?_⟩
  · intro store
    unfold list_payments
    rw [validate_api_key_self]
    simp [h10, h0, sqlSlice]
  · intro s off store hs
    unfold list_payments
    rw [validate_api_key_self]
    simp [hs]
  · intro l s lv store hl hs
    unfold list_payments
    rw [validate_api_key_self]
    simp [hl, hs]
  · intro store
    unfold list_payments
    rw [validate_api_key_self]
    simp [hneg, h0, sqlSlice]
  · intro off ov store hoff hov
    unfold list_payments
    rw [validate_api_key_self]
    have : ov.toNat = 0 := Int.toNat_of_nonpos (le_of_lt hov)
    simp [h10, hoff, sqlSlice, this]
  · intro p1 p2 p3
    constructor
    · unfold list_payments
      rw [validate_api_key_self]
      simp [show pyInt? "2" = some 2 from by decide, h0, sqlSlice]
    · unfold list_payments
      rw [validate_api_key_self]
      simp [show pyInt? "2" = some 2 from by decide, sqlSlice]

/-- Witness for C5 amended: the hypothesis-guarded conjuncts at concrete
inputs. -/
theorem listPayments_pagination_witness :
    list_payments "k" "k" (some "abc") none []
      = Except.error ⟨400, intErrorDetail "abc"⟩
    ∧ list_payments "k" "k" (some "2") (some "xy") []
      = Except.error ⟨400, intErrorDetail "xy"⟩
    ∧ list_payments "k" "k" none (some "-3") [samplePayment]
      = Except.ok [samplePayment] :=
  ⟨(listPayments_pagination "k").2.1 "abc" none [] (by decide),
   (listPayments_pagination "k").2.2.1 "2" "xy" 2 [] (by decide) (by decide),
   by
    have h := (listPayments_pagination "k").2.2.2.2.1 "-3" (-3) [samplePayment]
      (by decide) (by decide)
    rw [h]
    rfl⟩

/-- Claim C6: refunding a stored SUCCEEDED payment (whose amount is
positive, as all persisted amounts are) with an amount strictly greater
than the stored amount fails with detail "Refund amount exceeds payment
amount" and returns the store unchanged. -/
theorem refund_over_amount_rejected (cfg paymentId : String) (x : ℚ)
    (store : List Payment) (p : Payment)
    (hfind : store.find? (fun q => q.id == paymentId) = some p)
    (hst : p.status = PaymentStatus.succeeded)
    (hpos : 0 < p.amount)
    (hx : p.amount < x) :
    refund_payment cfg cfg paymentId (some x) store =
      (Except.error ⟨400, "Refund amount exceeds payment amount"⟩, store) := by
  unfold refund_payment
  rw [validate_api_key_self, hfind]
  have hx0 : x ≠ 0 := ne_of_gt (lt_trans hpos hx)
  simp [hst, pyTruthy, hx0, Option.getD, hx]

/-- Witness for C6: over-refund of the sample payment. -/
theorem refund_over_amount_rejected_witness :
    refund_payment "k" "k" "id1" (some 2000) [samplePayment] =
      (Except.error ⟨400, "Refund amount exceeds payment amount"⟩,
       [samplePayment]) :=
  refund_over_amount_rejected "k" "id1" 2000 [samplePayment] samplePayment
    (by decide) rfl (by decide) (by decide)

/-- Claim C7: the persisted record's last_four is exactly the final 4
characters of the submitted 16-digit card number and has length 4, and
the record retains nothing else of the card: any validated request
agreeing on the non-card fields whose card number also authorizes and has
the same final 4 characters (with any expiry and CVV that validate)
produces the identical record. -/
theorem createPayment_stores_only_last_four (cfg : String)
    (currentYear : Nat) (freshId : String) (now : Nat)
    (data : PaymentRequest) (store : List Payment) (cur : Currency)
    (hval : data.validate currentYear = none)
    (hcur : Currency.fromName data.currency = some cur)
    (h4111 : pyStartsWith data.card_details.card_number "4111" = true) :
    create_payment cfg cfg currentYear freshId now data store
      = (Except.ok (authorizedPayment freshId now data),
         store ++ [authorizedPayment freshId now data])
    ∧ (authorizedPayment freshId now data).last_four
        = String.mk (data.card_details.card_number.data.drop
            (data.card_details.card_number.data.length - 4))
    ∧ (authorizedPayment freshId now data).last_four.length = 4
    ∧ ∀ data2 : PaymentRequest,
        data2.validate currentYear = none →
        data2.amount = data.amount →
        data2.currency = data.currency →
        data2.description = data.description →
        data2.metadata = data.metadata →
        pyStartsWith data2.card_details.card_number "4111" = true →
        get_last_four_digits data2.card_details.card_number
          = get_last_four_digits data.card_details.card_number →
        create_payment cfg cfg currentYear freshId now data2 store
          = create_payment cfg cfg currentYear freshId now data store := by
  have hlen : 16 ≤ data.card_details.card_number.data.length := by
    have h16 := validate_none_card16 currentYear data hval
    unfold reDigits at h16
    simp only [Bool.and_eq_true, beq_iff_eq] at h16
    have hstrip := h16.1
    unfold pyDollarStrip at hstrip
    by_cases hlast : (data.card_details.card_number.data.getLast?
        == some '\n') = true
    · rw [if_pos hlast, List.length_dropLast] at hstrip
      omega
    · rw [if_neg hlast] at hstrip
      omega
  refine ⟨create_payment_eval_ok cfg currentYear freshId now data store cur
      hval hcur h4111, rfl, ?_, ?_⟩
  · show (data.card_details.card_number.data.drop
        (data.card_details.card_number.data.length - 4)).length = 4
    rw [List.length_drop]
    omega
  · intro data2 hval2 hamt hc hd hm h4111b hlast
    have hcur2 : Currency.fromName data2.currency = some cur := by
      rw [hc, hcur]
    rw [create_payment_eval_ok cfg currentYear freshId now data2 store cur
        hval2 hcur2 h4111b,
      create_payment_eval_ok cfg currentYear freshId now data store cur
        hval hcur h4111]
    have : authorizedPayment freshId now data2
        = authorizedPayment freshId now data := by
      simp [authorizedPayment, hamt, hc, hd, hm, hlast]
    rw [this]

/-- A second well-formed request: same amount, currency, description and
metadata as `sampleRequest`, but different card middle digits, expiry,
CVV and holder name, with the same final four digits. -/
def sampleRequestAltCard : PaymentRequest :=
  { amount := 1000, currency := "USD", description := some "Test payment",
    metadata := some [("order_id", "12345")],
    card_details :=
      { card_number := "4111222233331111", expiry_month := "01",
        expiry_year := "2031", cvv := "9999", cardholder_name := "Someone Else" } }

/-- Witness for C7: the sample request, whose persisted last_four is
"1111", and a second request with a different CVV, expiry and card middle
digits producing the identical record. -/
theorem createPayment_stores_only_last_four_witness :
    create_payment "k" "k" 2025 "id1" 7 sampleRequest []
      = (Except.ok (authorizedPayment "id1" 7 sampleRequest),
         [] ++ [authorizedPayment "id1" 7 sampleRequest])
    ∧ (authorizedPayment "id1" 7 sampleRequest).last_four
        = String.mk (sampleRequest.card_details.card_number.data.drop
            (sampleRequest.card_details.card_number.data.length - 4))
    ∧ (authorizedPayment "id1" 7 sampleRequest).last_four.length = 4
    ∧ create_payment "k" "k" 2025 "id1" 7 sampleRequestAltCard []
        = create_payment "k" "k" 2025 "id1" 7 sampleRequest [] :=
  have h := createPayment_stores_only_last_four "k" 2025 "id1" 7 sampleRequest
    [] Currency.USD (by decide) (by decide) (by decide)
  ⟨h.1, h.2.1, h.2.2.1,
   h.2.2.2 sampleRequestAltCard (by decide) (by decide) (by decide)
     (by decide) (by decide) (by decide) (by decide)⟩

/-- Claim C8: a refund call never changes any field other than status of
any stored row: the store after any refund_payment call (in particular a
successful one) maps to the same list of non-status field tuples, row by
row, as the store before it. -/
theorem refund_mutates_only_status (cfg apiKey paymentId : String)
    (a : Option ℚ) (store : List Payment) :
    ((refund_payment cfg apiKey paymentId a store).2).map Payment.frame
      = store.map Payment.frame := by
  unfold refund_payment
  cases validate_api_key cfg apiKey with
  | some msg => rfl
  | none =>
    cases store.find? (fun q => q.id == paymentId) with
    | none => rfl
    | some p =>
      by_cases h1 : p.status ≠ PaymentStatus.succeeded
      · simp [h1]
      · by_cases h2 : (pyTruthy a && decide (p.amount < a.getD 0)) = true
        · simp [h1, h2]
        · simp [h1, h2, setStatusFirst_map_frame]

/-- Claim C9: refunding a stored SUCCEEDED payment (with the nonnegative
stored amount every persisted row has) with an amount of 0 or any
negative amount behaves exactly like a refund with no amount: the call
succeeds and the payment transitions to REFUNDED instead of the
non-positive amount being rejected. -/
theorem refund_nonpositive_amount_treated_as_absent (cfg paymentId : String)
    (x : ℚ) (store : List Payment) (p : Payment)
    (hfind : store.find? (fun q => q.id == paymentId) = some p)
    (hst : p.status = PaymentStatus.succeeded)
    (hpos : 0 ≤ p.amount)
    (hx : x ≤ 0) :
    refund_payment cfg cfg paymentId (some x) store
      = refund_payment cfg cfg paymentId none store
    ∧ refund_payment cfg cfg paymentId (some x) store
      = (Except.ok { p with status := PaymentStatus.refunded },
         setStatusFirst paymentId PaymentStatus.refunded store) := by
  have hguard : (pyTruthy (some x) && decide (p.amount < (some x).getD 0)) = false := by
    by_cases hx0 : x = 0
    · simp [pyTruthy, hx0]
    · simp [pyTruthy, hx0, Option.getD]
      exact le_trans hx hpos
  have h1 := refund_payment_eval_ok cfg paymentId (some x) store p hfind hst hguard
  have h2 := refund_payment_eval_ok cfg paymentId none store p hfind hst
    (by simp [pyTruthy])
  exact ⟨h1.trans h2.symm, h1⟩

/-- Witness for C9: a refund of the sample payment with amount 0 and with
amount -5 both succeed. -/
theorem refund_nonpositive_amount_treated_as_absent_witness :
    (refund_payment "k" "k" "id1" (some 0) [samplePayment]
      = refund_payment "k" "k" "id1" none [samplePayment]
    ∧ refund_payment "k" "k" "id1" (some 0) [samplePayment]
      = (Except.ok { samplePayment with status := PaymentStatus.refunded },
         setStatusFirst "id1" PaymentStatus.refunded [samplePayment]))
    ∧ refund_payment "k" "k" "id1" (some (-5)) [samplePayment]
      = (Except.ok { samplePayment with status := PaymentStatus.refunded },
         setStatusFirst "id1" PaymentStatus.refunded [samplePayment]) :=
  ⟨refund_nonpositive_amount_treated_as_absent "k" "id1" 0 [samplePayment]
      samplePayment (by decide) rfl (by decide) (by decide),
   (refund_nonpositive_amount_treated_as_absent "k" "id1" (-5) [samplePayment]
      samplePayment (by decide) rfl (by decide) (by decide)).2⟩

/-- Counterexample to C10: with currency "EUR" on an otherwise valid,
authorizing request, create_payment answers 500 but the row IS persisted
(the enum type passes the unknown string through on bind, the commit
succeeds, and only the post-commit read-back fails, when the rollback can
no longer undo anything) — refuting "no record is persisted". -/
theorem createPayment_invalid_currency_record_persisted :
    create_payment "k" "k" 2025 "id1" 7
        { sampleRequest with currency := "EUR" } []
      = (Except.error ⟨500, "Internal server error"⟩,
         [authorizedPayment "id1" 7 { sampleRequest with currency := "EUR" }])
    ∧ (create_payment "k" "k" 2025 "id1" 7
        { sampleRequest with currency := "EUR" } []).2 ≠ [] :=
  ⟨by decide, by decide⟩

/-- Claim C10 as amended: the request validator never inspects currency,
and a request that passes validation and authorizes (4111 prefix) but
carries a currency outside USD, UGX, KES fails only after persistence —
the row is committed with the raw currency string and the post-commit
read-back fails — producing a 500 internal error, not a 400 validation
error, with the record persisted (the rollback after the commit is a
no-op, so the store gains the row). -/
theorem createPayment_invalid_currency_internal_error (cfg : String)
    (currentYear : Nat) (freshId : String) (now : Nat)
    (data : PaymentRequest) (store : List Payment)
    (hval : data.validate currentYear = none)
    (h4111 : pyStartsWith data.card_details.card_number "4111" = true)
    (hcur : Currency.fromName data.currency = none) :
    create_payment cfg cfg currentYear freshId now data store
      = (Except.error ⟨500, "Internal server error"⟩,
         store ++ [authorizedPayment freshId now data])
    ∧ ∀ c : String,
        PaymentRequest.validate currentYear { data with currency := c }
          = data.validate currentYear := by
  constructor
  · unfold create_payment
    rw [validate_api_key_self, hval]
    simp [h4111, hcur, authorizedPayment]
  · intro c
    rfl

/-- Witness for C10 as amended: the sample request with currency "EUR"
answers 500 with the row appended to the store. -/
theorem createPayment_invalid_currency_internal_error_witness :
    create_payment "k" "k" 2025 "id1" 7
        { sampleRequest with currency := "EUR" } [samplePayment]
      = (Except.error ⟨500, "Internal server error"⟩,
         [samplePayment]
           ++ [authorizedPayment "id1" 7 { sampleRequest with currency := "EUR" }])
    ∧ PaymentRequest.validate 2025
          { { sampleRequest with currency := "EUR" } with currency := "JPY" }
        = PaymentRequest.validate 2025 { sampleRequest with currency := "EUR" } :=
  have h := createPayment_invalid_currency_internal_error "k" 2025 "id1" 7
    { sampleRequest with currency := "EUR" } [samplePayment]
    (by decide) (by decide) (by decide)
  ⟨h.1, h.2 "JPY"⟩

end PesaPay
